import Mathlib

/-!
Verification development for the `@hsuite/health` health-monitoring library.

The development shallowly embeds the health-indicator aggregation engine:
the six indicator registrations of `HealthService.check`
(src/src/health.service.ts), the event-driven `DagHealthIndicator`
(src/src/health.service.ts, second compilation unit), the controller
response path (src/unnamed/part_001), the CPU-usage and network-statistics
computations of `HealthService`, and — modelled from the spec where the
implementing code lives in external packages (`@nestjs/terminus`,
`@nestjs/cache-manager`) — the aggregator algorithm and the TTL response
cache.
-/

namespace Health

/-! ## Indicator results (shape of terminus `HealthIndicatorResult` entries) -/

/-- Status of a single indicator: `up` or `down`. -/
inductive Status where
  | up
  | down
deriving DecidableEq, Repr

/-- A single named check result: `name`, `status`, and a detail string
(the arbitrary structured context carried alongside, flattened to a
message for aggregation purposes). -/
structure IndicatorResult where
  name : String
  status : Status
  detail : String
deriving DecidableEq, Repr

/-- What one registered indicator's check operation produces when it does
not raise: a status together with its detail. The key under which it is
filed is supplied by the registration (each call in `HealthService.check`
passes the name string to the indicator). -/
structure IndicatorReport where
  status : Status
  detail : String
deriving DecidableEq, Repr

/-- Outcome of invoking one indicator's check: either a report, or a raised
fault carrying a message. -/
abbrev IndicatorOutcome := Except String IndicatorReport

/-- Modelled from the spec: step 2 of the aggregation algorithm (§4.4) for a
single indicator, implemented in `@nestjs/terminus` (not under src/): the
invocation is isolated — a fault raised by the indicator's underlying call
is caught and converted into a `DOWN` IndicatorResult for that name rather
than aborting the remaining checks. -/
def runIndicator (name : String) (o : IndicatorOutcome) : IndicatorResult :=
  match o with
  | .ok r => ⟨name, r.status, r.detail⟩
  | .error msg => ⟨name, .down, msg⟩

/-! ## Aggregate report -/

/-- Overall status of the aggregate report: `ok` or `error`. -/
inductive AggStatus where
  | ok
  | error
deriving DecidableEq, Repr

/-- The aggregate report: overall status, the `info` map (UP entries), the
`error` map (DOWN entries), and `details` (all entries), represented as
lists of named results in registration order. -/
structure AggregateReport where
  status : AggStatus
  info : List IndicatorResult
  error : List IndicatorResult
  details : List IndicatorResult
deriving DecidableEq, Repr

/-- Modelled from the spec: the aggregator `Check()` of §4.4, implemented by
`HealthCheckService.check` of `@nestjs/terminus` (not under src/). Steps
2–4: invoke every registered indicator's check operation in registration
order with per-indicator isolation (`runIndicator`); partition results
into `info` (UP) and `error` (DOWN); populate `details` with all results;
overall status is OK iff `error` is empty. -/
def healthCheck (indicators : List (String × IndicatorOutcome)) : AggregateReport :=
  let results := indicators.map fun p => runIndicator p.1 p.2
  let infoList := results.filter fun r => r.status = Status.up
  let errorList := results.filter fun r => r.status = Status.down
  { status := if errorList.isEmpty then AggStatus.ok else AggStatus.error
    info := infoList
    error := errorList
    details := results }

/-- The six indicator names registered by `HealthService.check`
(src/src/health.service.ts lines 352–361), in registration order. -/
def registeredNames : List String :=
  ["storage", "memory_heap", "memory_rss", "mongoose", "redis", "dag"]

/-- `HealthService.check` (src/src/health.service.ts lines 352–361): runs the
aggregator over the six registered indicator check functions. The outcome
each underlying check produces on this invocation is supplied by the
environment as `o1`–`o6`. -/
def serviceCheck (o1 o2 o3 o4 o5 o6 : IndicatorOutcome) : AggregateReport :=
  healthCheck
    [("storage", o1), ("memory_heap", o2), ("memory_rss", o3),
     ("mongoose", o4), ("redis", o5), ("dag", o6)]

/-! ## General aggregator lemmas -/

/-- The result produced for a registered indicator is filed under the
registered name, whether the check returned or faulted. -/
theorem runIndicator_name (name : String) (o : IndicatorOutcome) :
    (runIndicator name o).name = name := by
  cases o <;> rfl

/-- A status is `up` exactly when it is not `down`. -/
theorem status_up_iff_not_down (s : Status) : s = Status.up ↔ ¬ s = Status.down := by
  cases s <;> simp

theorem healthCheck_details (l : List (String × IndicatorOutcome)) :
    (healthCheck l).details = l.map fun p => runIndicator p.1 p.2 := rfl

theorem healthCheck_error (l : List (String × IndicatorOutcome)) :
    (healthCheck l).error =
      (l.map fun p => runIndicator p.1 p.2).filter fun r => r.status = Status.down := rfl

theorem healthCheck_info (l : List (String × IndicatorOutcome)) :
    (healthCheck l).info =
      (l.map fun p => runIndicator p.1 p.2).filter fun r => r.status = Status.up := rfl

theorem healthCheck_status (l : List (String × IndicatorOutcome)) :
    (healthCheck l).status =
      if (healthCheck l).error.isEmpty then AggStatus.ok else AggStatus.error := rfl

/-- The overall status is OK exactly when the error map is empty. -/
theorem healthCheck_status_ok_iff (l : List (String × IndicatorOutcome)) :
    (healthCheck l).status = AggStatus.ok ↔ (healthCheck l).error = [] := by
  rw [healthCheck_status]
  rcases h : (healthCheck l).error with _ | ⟨a, t⟩ <;> simp [h, List.isEmpty]

/-- The overall status is ERROR exactly when the error map is non-empty. -/
theorem healthCheck_status_error_iff (l : List (String × IndicatorOutcome)) :
    (healthCheck l).status = AggStatus.error ↔ (healthCheck l).error ≠ [] := by
  have h := healthCheck_status_ok_iff l
  constructor
  · intro he hnil
    rw [h.mpr hnil] at he
    exact AggStatus.noConfusion he
  · intro hne
    rcases hs : (healthCheck l).status with _ | _
    · exact absurd (h.mp hs) hne
    · rfl

/-- The error map is empty exactly when every result in `details` is UP. -/
theorem healthCheck_error_nil_iff (l : List (String × IndicatorOutcome)) :
    (healthCheck l).error = [] ↔ ∀ r ∈ (healthCheck l).details, r.status = Status.up := by
  rw [healthCheck_error, healthCheck_details]
  rw [List.filter_eq_nil_iff]
  constructor
  · intro h r hr
    have := h r hr
    simp only [decide_eq_true_eq] at this
    exact (status_up_iff_not_down r.status).mpr this
  · intro h r hr
    simp only [decide_eq_true_eq]
    exact (status_up_iff_not_down r.status).mp (h r hr)

/-- The `info` and `error` maps together are a permutation of `details`:
they partition the results by status. -/
theorem healthCheck_info_append_error_perm (l : List (String × IndicatorOutcome)) :
    ((healthCheck l).info ++ (healthCheck l).error).Perm (healthCheck l).details := by
  rw [healthCheck_info, healthCheck_error, healthCheck_details]
  have h2 :
      ((l.map fun p => runIndicator p.1 p.2).filter fun r => r.status = Status.down) =
        (l.map fun p => runIndicator p.1 p.2).filter
          fun r => !(decide (r.status = Status.up)) := by
    refine List.filter_congr ?_
    intro r _
    cases h : r.status <;> simp [h]
  rw [h2]
  exact List.filter_append_perm _ _

/-- C1: for every invocation of the aggregator over the six registered
indicator checks of `HealthService.check` and every outcome of those
checks, the returned report has status OK iff its error map is empty
(equivalently, iff every contributing result has status UP), and status
ERROR iff the error map is non-empty. -/
theorem serviceCheck_status_ok_iff_error_empty (o1 o2 o3 o4 o5 o6 : IndicatorOutcome) :
    ((serviceCheck o1 o2 o3 o4 o5 o6).status = AggStatus.ok ↔
      (serviceCheck o1 o2 o3 o4 o5 o6).error = []) ∧
    ((serviceCheck o1 o2 o3 o4 o5 o6).status = AggStatus.ok ↔
      ∀ r ∈ (serviceCheck o1 o2 o3 o4 o5 o6).details, r.status = Status.up) ∧
    ((serviceCheck o1 o2 o3 o4 o5 o6).status = AggStatus.error ↔
      (serviceCheck o1 o2 o3 o4 o5 o6).error ≠ []) :=
  ⟨healthCheck_status_ok_iff _,
   (healthCheck_status_ok_iff _).trans (healthCheck_error_nil_iff _),
   healthCheck_status_error_iff _⟩

/-- C2: `Check()` never throws on an individual indicator failure: the
aggregation is a total function in which a fault or DOWN result of one
indicator is recorded as a DOWN entry for that name while every remaining
indicator is still evaluated (`details` has one entry per registration no
matter what the outcomes are), and in particular with indicators
`A`: always DOWN (a raised fault) and `B`: always UP, the call returns a
report with `info = {B}`, `error = {A}`, `status = ERROR`. -/
theorem check_isolates_indicator_failure :
    (∀ l : List (String × IndicatorOutcome), (healthCheck l).details.length = l.length) ∧
    healthCheck [("A", Except.error "timeout"), ("B", Except.ok ⟨Status.up, "pong"⟩)] =
      { status := AggStatus.error
        info := [⟨"B", Status.up, "pong"⟩]
        error := [⟨"A", Status.down, "timeout"⟩]
        details := [⟨"A", Status.down, "timeout"⟩, ⟨"B", Status.up, "pong"⟩] } := by
  constructor
  · intro l
    rw [healthCheck_details, List.length_map]
  · rfl

/-- C5: for every invocation of `Check()` over the six registered indicators
(storage, memory_heap, memory_rss, mongoose, redis, dag), the report's
`details` map has exactly 6 entries whose names are exactly the registered
names (each appearing exactly once, since the registered names are
pairwise distinct), and for every name the occurrences in `info` and
`error` together account exactly for its occurrences in `details`, so each
indicator lands in exactly one of the two maps. -/
theorem serviceCheck_details_exactly_once (o1 o2 o3 o4 o5 o6 : IndicatorOutcome) :
    (serviceCheck o1 o2 o3 o4 o5 o6).details.map (fun r => r.name) = registeredNames ∧
    (serviceCheck o1 o2 o3 o4 o5 o6).details.length = 6 ∧
    registeredNames.Nodup ∧
    ∀ n : String,
      ((serviceCheck o1 o2 o3 o4 o5 o6).info.map (fun r => r.name)).count n +
        ((serviceCheck o1 o2 o3 o4 o5 o6).error.map (fun r => r.name)).count n =
        ((serviceCheck o1 o2 o3 o4 o5 o6).details.map (fun r => r.name)).count n := by
  refine ⟨?_, ?_, by decide, ?_⟩
  · simp [serviceCheck, healthCheck_details, runIndicator_name, registeredNames]
  · simp [serviceCheck, healthCheck_details]
  · intro n
    have hperm := healthCheck_info_append_error_perm
      [("storage", o1), ("memory_heap", o2), ("memory_rss", o3),
       ("mongoose", o4), ("redis", o5), ("dag", o6)]
    have hmap := hperm.map fun r => r.name
    rw [List.map_append] at hmap
    rw [serviceCheck]
    rw [← List.count_append]
    exact hmap.count_eq n

/-! ## DagHealthIndicator (src/src/health.service.ts, dag.health unit)

The network descriptor carried by notifications is `any` in the source; the
embedding is parametric in an element type `α`, with the `dagNetwork` field
holding a list (the source initializes it to `new Array<any>()`). -/

/-- `NetworkPayload`: the shape of the threshold-crossing notification
payloads, a single `network` field. -/
structure NetworkPayload (α : Type) where
  network : List α
deriving DecidableEq, Repr

/-- The mutable state of `DagHealthIndicator`: the `_isHealthy` flag
(initially `false`) and the `dagNetwork` descriptor (initially empty). -/
structure DagState (α : Type) where
  _isHealthy : Bool
  dagNetwork : List α
deriving DecidableEq, Repr

/-- The initial state of a `DagHealthIndicator` instance:
`_isHealthy = false`, `dagNetwork = new Array<any>()`. -/
def dagInitial (α : Type) : DagState α := ⟨false, []⟩

/-- `handleNetworkThresholdOnline` (the `network_threshold_online` event
handler): sets `_isHealthy = true` and replaces `dagNetwork` with the
payload's `network`. -/
def handleNetworkThresholdOnline (payload : NetworkPayload α) (s : DagState α) :
    DagState α :=
  { s with _isHealthy := true, dagNetwork := payload.network }

/-- `handleNetworkThresholdOffline` (the `network_threshold_offline` event
handler): sets `_isHealthy = false` and replaces `dagNetwork` with the
payload's `network`. -/
def handleNetworkThresholdOffline (payload : NetworkPayload α) (s : DagState α) :
    DagState α :=
  { s with _isHealthy := false, dagNetwork := payload.network }

/-- The result built by the DAG indicator: name, status, and the `network`
detail. -/
structure DagResult (α : Type) where
  name : String
  status : Status
  network : List α
deriving DecidableEq, Repr

/-- Modelled from the spec: the terminus `HealthIndicator` base class's
shared `getStatus` helper (not under src/) — per §9, a helper that builds
an `IndicatorResult` from `(name, bool, detail)`, with status UP when the
boolean is true and DOWN otherwise. -/
def getStatus (name : String) (healthy : Bool) (network : List α) : DagResult α :=
  ⟨name, if healthy then Status.up else Status.down, network⟩

/-- The `HealthCheckError` thrown by the indicator: a message together with
the result it carries as its cause. -/
structure DagCheckError (α : Type) where
  message : String
  causes : DagResult α
deriving DecidableEq, Repr

/-- `DagHealthIndicator.isHealthy` (src/src/health.service.ts lines
621–629): builds `getStatus('dag', _isHealthy, { network: dagNetwork })`;
returns it when healthy, otherwise throws
`HealthCheckError('Dagcheck failed', result)`. -/
def isHealthy (s : DagState α) : Except (DagCheckError α) (DagResult α) :=
  let result := getStatus "dag" s._isHealthy s.dagNetwork
  if s._isHealthy then Except.ok result
  else Except.error ⟨"Dagcheck failed", result⟩

/-- C3: from the initial state, the first `IsHealthy` fails with a
check-failed error whose result has status DOWN; after the online
notification with payload `X`, `IsHealthy` succeeds with
`detail.network = X`; after the subsequent offline notification with
payload `Y`, `IsHealthy` fails again with `detail.network = Y`
(last-write-wins on both the healthy flag and the payload). -/
theorem dag_event_trace (α : Type) (X Y : List α) :
    isHealthy (dagInitial α) =
      Except.error ⟨"Dagcheck failed", ⟨"dag", Status.down, []⟩⟩ ∧
    isHealthy (handleNetworkThresholdOnline ⟨X⟩ (dagInitial α)) =
      Except.ok ⟨"dag", Status.up, X⟩ ∧
    isHealthy (handleNetworkThresholdOffline ⟨Y⟩
        (handleNetworkThresholdOnline ⟨X⟩ (dagInitial α))) =
      Except.error ⟨"Dagcheck failed", ⟨"dag", Status.down, Y⟩⟩ :=
  ⟨rfl, rfl, rfl⟩

/-- C4: `IsHealthy` raises a check-failed error iff the healthy flag is
false; the error then carries as its cause exactly the result it would
otherwise return — name "dag", status DOWN, the current network payload as
detail — and when the flag is true it returns that result with status
UP. -/
theorem dag_isHealthy_error_iff (α : Type) (s : DagState α) :
    ((∃ e, isHealthy s = Except.error e) ↔ s._isHealthy = false) ∧
    (s._isHealthy = false →
      isHealthy s =
        Except.error ⟨"Dagcheck failed", ⟨"dag", Status.down, s.dagNetwork⟩⟩) ∧
    (s._isHealthy = true →
      isHealthy s = Except.ok ⟨"dag", Status.up, s.dagNetwork⟩) := by
  rcases s with ⟨h, n⟩
  cases h <;> simp [isHealthy, getStatus]

/-- Witness for C4 at the initial state over `α = Unit`. -/
theorem dag_isHealthy_error_iff_witness :
    isHealthy (dagInitial Unit) =
      Except.error ⟨"Dagcheck failed", ⟨"dag", Status.down, []⟩⟩ :=
  (dag_isHealthy_error_iff Unit (dagInitial Unit)).2.1 rfl

/-! ## Concurrency model for the event-driven indicator

The handlers and `isHealthy` run on the single-threaded JavaScript event
loop: each is a synchronous segment containing no `await`, so the runtime
executes a whole segment to completion before any other segment may run.
The model therefore makes individual field reads and writes primitive
operations, groups them into the segments the source defines, and lets the
scheduler interleave whole segments in every possible order. -/

/-- A primitive operation on the indicator's state: write one field, or
read one field into the observer. -/
inductive DagOp (α : Type) where
  | setHealthy (b : Bool)
  | setNetwork (n : List α)
  | readHealthy
  | readNetwork
deriving DecidableEq, Repr

/-- The shared state together with what the reading task observed so far. -/
structure ConcState (α : Type) where
  dag : DagState α
  obsHealthy : Option Bool
  obsNetwork : Option (List α)
deriving DecidableEq, Repr

/-- Effect of one primitive operation. -/
def runOp (s : ConcState α) : DagOp α → ConcState α
  | .setHealthy b => { s with dag := { s.dag with _isHealthy := b } }
  | .setNetwork n => { s with dag := { s.dag with dagNetwork := n } }
  | .readHealthy => { s with obsHealthy := some s.dag._isHealthy }
  | .readNetwork => { s with obsNetwork := some s.dag.dagNetwork }

/-- Run one synchronous segment to completion. -/
def runSeg (s : ConcState α) (seg : List (DagOp α)) : ConcState α :=
  seg.foldl runOp s

/-- Run a schedule: a sequence of synchronous segments. -/
def runSched (s : ConcState α) (sched : List (List (DagOp α))) : ConcState α :=
  sched.foldl runSeg s

/-- All interleavings of two sequences that preserve the order within
each. -/
def interleavings {σ : Type} : List σ → List σ → List (List σ)
  | [], ys => [ys]
  | x :: xs, [] => [x :: xs]
  | x :: xs, y :: ys =>
      ((interleavings xs (y :: ys)).map fun t => x :: t) ++
        ((interleavings (x :: xs) ys).map fun t => y :: t)

/-- The synchronous body of an `OnThresholdCrossed` notification handler
(`handleNetworkThresholdOnline` with `isOnline = true`,
`handleNetworkThresholdOffline` with `isOnline = false`): assign the
healthy flag, then assign the network payload, with no `await` between
the two statements. -/
def thresholdSeg (isOnline : Bool) (net : List α) : List (DagOp α) :=
  [DagOp.setHealthy isOnline, DagOp.setNetwork net]

/-- The synchronous read in `isHealthy`: the single `getStatus` call reads
`_isHealthy` and then `dagNetwork`, with no `await` between the two
reads. -/
def readSnapshotSeg (α : Type) : List (DagOp α) :=
  [DagOp.readHealthy, DagOp.readNetwork]

/-- C8: for every interleaving of one `OnThresholdCrossed` notification
with one concurrent `IsHealthy` read, the read observes a consistent
snapshot: either the pre-update pair `(healthy, payload)` or the
post-update pair, never a mixture. -/
theorem dag_snapshot_consistent (α : Type) (s0 : DagState α) (isOnline : Bool)
    (net : List α) (sched : List (List (DagOp α)))
    (h : sched ∈ interleavings [thresholdSeg isOnline net] [readSnapshotSeg α]) :
    ((runSched ⟨s0, none, none⟩ sched).obsHealthy = some s0._isHealthy ∧
      (runSched ⟨s0, none, none⟩ sched).obsNetwork = some s0.dagNetwork) ∨
    ((runSched ⟨s0, none, none⟩ sched).obsHealthy = some isOnline ∧
      (runSched ⟨s0, none, none⟩ sched).obsNetwork = some net) := by
  have hcases :
      sched = [thresholdSeg isOnline net, readSnapshotSeg α] ∨
        sched = [readSnapshotSeg α, thresholdSeg isOnline net] := by
    simpa [interleavings] using h
  rcases hcases with h' | h' <;> subst h'
  · right
    constructor <;> rfl
  · left
    constructor <;> rfl

/-- Witness for C8: the schedule that runs the notification first, at a
concrete state and payload over `α = Unit`. -/
theorem dag_snapshot_consistent_witness :
    [thresholdSeg true [()], readSnapshotSeg Unit] ∈
      interleavings [thresholdSeg true [()]] [readSnapshotSeg Unit] ∧
    (((runSched ⟨⟨false, []⟩, none, none⟩
          [thresholdSeg true [()], readSnapshotSeg Unit]).obsHealthy = some false ∧
        (runSched ⟨⟨false, []⟩, none, none⟩
          [thresholdSeg true [()], readSnapshotSeg Unit]).obsNetwork = some []) ∨
      ((runSched ⟨⟨false, []⟩, none, none⟩
          [thresholdSeg true [()], readSnapshotSeg Unit]).obsHealthy = some true ∧
        (runSched ⟨⟨false, []⟩, none, none⟩
          [thresholdSeg true [()], readSnapshotSeg Unit]).obsNetwork = some [()])) :=
  ⟨by simp [interleavings],
   dag_snapshot_consistent Unit ⟨false, []⟩ true [()] _ (by simp [interleavings])⟩

/-! ## Response cache (modelled from the spec)

The `@CacheTTL(1)` annotations sit on `HealthController.check` and
`HealthController.infos` (src/unnamed/part_001); the cache machinery they
configure lives in `@nestjs/cache-manager`, outside src/, so it is
modelled from the spec (§3 `CacheEntry`, §4.5 `Get`/`Put`, §4.4 steps 1
and 5). The cached value type is generic (`β`) since the same cache fronts
both endpoints. -/

/-- Modelled from the spec: a `CacheEntry` (§3) — a value together with the
timestamp at which it expires. -/
structure CacheEntry (β : Type) where
  value : β
  expiresAt : ℚ

/-- Modelled from the spec: `Get` (§4.5) — a cached entry is served only
while `now < expiresAt`; expiry is lazy and time-based. -/
def cacheGet (e : Option (CacheEntry β)) (now : ℚ) : Option β :=
  match e with
  | some entry => if now < entry.expiresAt then some entry.value else none
  | none => none

/-- Modelled from the spec: `Put` (§4.5) — store the value with
`expiresAt = now + ttl`. -/
def cachePut (value : β) (now ttl : ℚ) : CacheEntry β :=
  ⟨value, now + ttl⟩

/-- The TTL both endpoints configure: `@CacheTTL(1)`
(src/unnamed/part_001 lines 129 and 236). -/
def cacheTTLvalue : ℚ := 1

/-- Outcome of one call through the cache: the value served, the cache
state afterwards, and whether the underlying computation was invoked. -/
structure CachedCall (β : Type) where
  value : β
  cache : Option (CacheEntry β)
  computedFresh : Bool

/-- Modelled from the spec: steps 1 and 5 of §4.4 — serve a live cached
entry without invoking the underlying computation; otherwise invoke it and
store its result with the fixed TTL. `compute` is the value the underlying
computation would produce on this invocation; `computedFresh` records
whether it was invoked. -/
def cachedCall (compute : β) (st : Option (CacheEntry β)) (now : ℚ) : CachedCall β :=
  match cacheGet st now with
  | some v => ⟨v, st, false⟩
  | none => ⟨compute, some (cachePut compute now cacheTTLvalue), true⟩

/-- C6: with the 1-unit TTL the endpoints configure, a first call at time
`t` invokes the underlying computation; a second call at any time
`t2 < t + 1` returns the identical cached value without invoking it (even
if the underlying computation would now produce something else); and a
third call at any time `t3 ≥ t + 1` invokes the computation again and
returns its fresh value. -/
theorem cache_ttl_behavior (β : Type) (rep rep2 : β) (t t2 t3 : ℚ)
    (h2 : t2 < t + 1) (h3 : t + 1 ≤ t3) :
    (cachedCall rep none t).computedFresh = true ∧
    (cachedCall rep none t).value = rep ∧
    (cachedCall rep2 (cachedCall rep none t).cache t2).computedFresh = false ∧
    (cachedCall rep2 (cachedCall rep none t).cache t2).value = rep ∧
    (cachedCall rep2
      (cachedCall rep2 (cachedCall rep none t).cache t2).cache t3).computedFresh = true ∧
    (cachedCall rep2
      (cachedCall rep2 (cachedCall rep none t).cache t2).cache t3).value = rep2 := by
  have hmiss : ¬ t3 < t + 1 := not_lt.mpr h3
  simp [cachedCall, cacheGet, cachePut, cacheTTLvalue, h2, hmiss]

/-- Witness for C6 at `t = 0`, `t2 = 1/2`, `t3 = 1` over natural-number
values. -/
theorem cache_ttl_behavior_witness :
    ((1 : ℚ) / 2 < 0 + 1) ∧ ((0 : ℚ) + 1 ≤ 1) ∧
    ((cachedCall 7 none (0 : ℚ)).computedFresh = true ∧
      (cachedCall 7 none (0 : ℚ)).value = 7 ∧
      (cachedCall 8 (cachedCall 7 none (0 : ℚ)).cache (1 / 2)).computedFresh = false ∧
      (cachedCall 8 (cachedCall 7 none (0 : ℚ)).cache (1 / 2)).value = 7 ∧
      (cachedCall 8
        (cachedCall 8 (cachedCall 7 none (0 : ℚ)).cache (1 / 2)).cache 1).computedFresh
          = true ∧
      (cachedCall 8
        (cachedCall 8 (cachedCall 7 none (0 : ℚ)).cache (1 / 2)).cache 1).value = 8) :=
  ⟨by norm_num, by norm_num,
   cache_ttl_behavior ℕ 7 8 0 (1 / 2) 1 (by norm_num) (by norm_num)⟩

/-! ## HTTP layer for GET /health/check -/

/-- A settled JavaScript promise: resolved with a value or rejected with a
reason. -/
inductive Promise (ε α : Type) where
  | resolved (value : α)
  | rejected (reason : ε)
deriving DecidableEq, Repr

/-- Modelled from the spec: `Check() -> AggregateReport` "never throws on
individual indicator failure" (§4.4) — the promise `healthService.check()`
returns settles by resolving with the aggregate report whatever the
indicator outcomes are; indicator failures are absorbed into the report,
so the rejection type is `Empty`. -/
def serviceCheckPromise (o1 o2 o3 o4 o5 o6 : IndicatorOutcome) :
    Promise Empty AggregateReport :=
  Promise.resolved (serviceCheck o1 o2 o3 o4 o5 o6)

/-- `HealthController.check` (src/unnamed/part_001 lines 141–147):
`return this.healthService.check()` returns the promise without awaiting
it, so the surrounding `try/catch` can intercept only an exception thrown
synchronously while starting the check — a later rejection of the returned
promise would bypass the `catch` and its `BadRequestException`. The
aggregator's promise always resolves and its construction does not throw,
so the handler passes the promise through unchanged and the
`BadRequestException` branch is unreachable. -/
def controllerCheck (o1 o2 o3 o4 o5 o6 : IndicatorOutcome) :
    Promise Empty AggregateReport :=
  serviceCheckPromise o1 o2 o3 o4 o5 o6

/-- An HTTP response: numeric status code and the report serialized as the
body. -/
structure HttpResponse where
  statusCode : ℕ
  body : AggregateReport
deriving DecidableEq, Repr

/-- Modelled from the spec: the HTTP framework layer (NestJS, not under
src/) serializes a route handler's resolved promise as a 200 response
whose body is the resolved value. -/
def httpCheckResponse (p : Promise Empty AggregateReport) : HttpResponse :=
  match p with
  | .resolved rep => ⟨200, rep⟩
  | .rejected e => e.elim

/-- C7 (evaluation at the failing input): the endpoint serves every
aggregate outcome — including reports whose status is ERROR — with HTTP
status 200; in particular, when all six indicator checks fault, the
response is 200 and its body's status is ERROR, never the 400-class
response the claim describes. -/
theorem controller_check_error_report_gets_200 :
    (∀ o1 o2 o3 o4 o5 o6 : IndicatorOutcome,
      (httpCheckResponse (controllerCheck o1 o2 o3 o4 o5 o6)).statusCode = 200) ∧
    (httpCheckResponse (controllerCheck
        (Except.error "down") (Except.error "down") (Except.error "down")
        (Except.error "down") (Except.error "down")
        (Except.error "down"))).statusCode = 200 ∧
    (httpCheckResponse (controllerCheck
        (Except.error "down") (Except.error "down") (Except.error "down")
        (Except.error "down") (Except.error "down")
        (Except.error "down"))).body.status = AggStatus.error :=
  ⟨fun _ _ _ _ _ _ => rfl, rfl, rfl⟩

/-! ## CPU usage computation (HealthService.getCpuUsage, lines 185–193) -/

/-- A sample of `process.cpuUsage()`: the cumulative user and system CPU
time the process has consumed, in microseconds. -/
structure CpuSample where
  user : ℕ
  system : ℕ
deriving DecidableEq, Repr

/-- The object `getCpuUsage` returns: `usage`, core count, mean clock
speed. -/
structure CpuMetrics where
  usage : ℚ
  cpus : ℕ
  speed : ℚ
deriving DecidableEq, Repr

/-- `HealthService.getCpuUsage` (src/src/health.service.ts lines 185–193):
`usage = (user + system) / (#cores * 1000 * 1000)`, `cpus` is the core
count, `speed` the mean of the per-core clock speeds. `speeds` is the list
of clock speeds of the `os.cpus()` entries, whose length is the core
count. -/
def getCpuUsage (sample : CpuSample) (speeds : List ℚ) : CpuMetrics :=
  { usage := ((sample.user : ℚ) + sample.system) / ((speeds.length : ℚ) * 1000 * 1000)
    cpus := speeds.length
    speed := speeds.sum / (speeds.length : ℚ) }

/-- C9: `process.cpuUsage()` is cumulative, so across two successive
samples within one process the combined user+system time never decreases;
since `getCpuUsage` divides that cumulative total by the fixed core count
and never resets it, the later computed usage is always greater than or
equal to the earlier one — a monotonically non-decreasing value, not an
instantaneous percentage. -/
theorem getCpuUsage_monotone (s1 s2 : CpuSample) (speeds : List ℚ)
    (hcum : s1.user + s1.system ≤ s2.user + s2.system) :
    (getCpuUsage s1 speeds).usage ≤ (getCpuUsage s2 speeds).usage := by
  unfold getCpuUsage
  simp only
  rcases eq_or_lt_of_le
      (by positivity : (0 : ℚ) ≤ (speeds.length : ℚ) * 1000 * 1000) with hz | hpos
  · rw [← hz, div_zero, div_zero]
  · rw [div_le_div_iff_of_pos_right hpos]
    exact_mod_cast hcum

/-- Witness for C9 at two concrete cumulative samples on a one-core
machine. -/
theorem getCpuUsage_monotone_witness :
    (⟨100, 50⟩ : CpuSample).user + (⟨100, 50⟩ : CpuSample).system ≤
        (⟨150, 80⟩ : CpuSample).user + (⟨150, 80⟩ : CpuSample).system ∧
    (getCpuUsage ⟨100, 50⟩ [2400]).usage ≤ (getCpuUsage ⟨150, 80⟩ [2400]).usage :=
  ⟨by decide, getCpuUsage_monotone ⟨100, 50⟩ ⟨150, 80⟩ [2400] (by decide)⟩

/-! ## Network statistics (HealthService.infos, lines 286–319) -/

/-- One interface's statistics as `infos` consumes them: `inputBytes` and
`outputBytes` counters. -/
structure NetworkStat where
  inputBytes : ℤ
  outputBytes : ℤ
deriving DecidableEq, Repr

/-- The network computation inside `HealthService.infos`: map each
interface's statistics to its `{inputBytes, outputBytes}` pair and reduce
by component-wise addition starting from
`{inputBytes: 0, outputBytes: 0}`. -/
def sumNetworkStats (stats : List NetworkStat) : NetworkStat :=
  ((stats.map fun stat => (⟨stat.inputBytes, stat.outputBytes⟩ : NetworkStat)).foldl
    (fun acc curr => ⟨acc.inputBytes + curr.inputBytes, acc.outputBytes + curr.outputBytes⟩)
    ⟨0, 0⟩)

/-- The `network` field of the snapshot `HealthService.infos` returns:
if reading the per-interface statistics throws, the `catch` branch
substitutes `{inputBytes: 0, outputBytes: 0}`; otherwise the reduced sum.
The computation is total — a netstat failure never rejects `infos()`. -/
def infosNetwork (stats : Except String (List NetworkStat)) : NetworkStat :=
  match stats with
  | .ok s => sumNetworkStats s
  | .error _ => ⟨0, 0⟩

/-- Folding component-wise addition over a list of stats adds the
component sums to the accumulator. -/
theorem foldl_networkStats (l : List NetworkStat) (a : NetworkStat) :
    l.foldl
      (fun acc curr =>
        (⟨acc.inputBytes + curr.inputBytes, acc.outputBytes + curr.outputBytes⟩ :
          NetworkStat)) a =
      ⟨a.inputBytes + (l.map fun s => s.inputBytes).sum,
        a.outputBytes + (l.map fun s => s.outputBytes).sum⟩ := by
  induction l generalizing a with
  | nil => simp
  | cons x xs ih => simp [List.foldl_cons, ih, add_assoc]

/-- C10: `infos()` never rejects because of a network-stats failure — the
network field is total in the outcome of the statistics read: on a throw
it is `{inputBytes: 0, outputBytes: 0}`, and otherwise it is the sum over
all interfaces of their `inputBytes` and `outputBytes`. -/
theorem infosNetwork_total (e : String) (stats : List NetworkStat) :
    infosNetwork (Except.error e) = ⟨0, 0⟩ ∧
    infosNetwork (Except.ok stats) =
      ⟨(stats.map fun s => s.inputBytes).sum,
        (stats.map fun s => s.outputBytes).sum⟩ := by
  refine ⟨rfl, ?_⟩
  show sumNetworkStats stats = _
  unfold sumNetworkStats
  have hmap :
      (fun stat : NetworkStat =>
        (⟨stat.inputBytes, stat.outputBytes⟩ : NetworkStat)) = id := rfl
  rw [hmap, List.map_id, foldl_networkStats]
  simp

end Health
